import Mathlib

set_option maxRecDepth 8000

namespace HospitalApi

/-! Shallow embedding of the hospital-api resource-access layer.

The embedded source files are the four express routers (patients, doctors,
departments, appointments), the db/connect module, and the server wiring.
Request bodies and stored documents are schema-less JSON objects; handlers
are pure functions from a connection state, path parameters and a parsed
body to a response, the new connection state, and the list of store
operations performed. The current time is passed explicitly where the
source calls new Date(). -/

/-- JSON-ish runtime values occurring in request bodies and stored documents.
An oid is a BSON ObjectId rendered as its hexadecimal string; time is a Date
as a millisecond timestamp. Fractional numbers never occur in the claims
under study, so numbers are modelled as integers, with nan covering the
non-numeric results of JavaScript Number conversion. -/
inductive Value where
  | str (s : String)
  | num (n : Int)
  | bool (b : Bool)
  | oid (id : String)
  | time (ms : Nat)
  | nan
  | null
deriving DecidableEq, Repr

/-- JavaScript truthiness of a value: the empty string, zero, false, NaN and
null are falsy, everything else is truthy. -/
def Value.truthy : Value → Bool
  | .str s => !(s == "")
  | .num n => !(n == 0)
  | .bool b => b
  | .oid _ => true
  | .time _ => true
  | .nan => false
  | .null => false

/-- Truthiness of a possibly-absent (undefined) property. -/
def truthyOpt : Option Value → Bool
  | none => false
  | some v => v.truthy

/-- A schema-less document or parsed JSON request body: an ordered list of
field/value pairs. Every object the embedded code builds has distinct keys. -/
abbrev Doc := List (String × Value)

/-- Field lookup, corresponding to JavaScript property access and
destructuring. -/
def Doc.get (d : Doc) (k : String) : Option Value :=
  (d.find? (fun p => p.1 == k)).map (·.2)

/-- Set one field the way the MongoDB set operator does: replace the value in
place when the key exists, append the field otherwise. -/
def Doc.set1 : Doc → String → Value → Doc
  | [], k, v => [(k, v)]
  | p :: rest, k, v => if p.1 == k then (k, v) :: rest else p :: Doc.set1 rest k v

/-- Apply a whole patch document field by field, in order. -/
def Doc.setMany (d : Doc) (patch : Doc) : Doc :=
  patch.foldl (fun acc kv => acc.set1 kv.1 kv.2) d

/-- Whether a stored document's id field equals the given ObjectId string. -/
def isMatch (d : Doc) (id : String) : Bool :=
  d.get "_id" == some (.oid id)

/-- findOne on the id filter: the first document whose id matches. -/
def findById (c : List Doc) (id : String) : Option Doc :=
  c.find? (fun d => isMatch d id)

/-- Number of documents carrying the id; 0 or 1 in any state reachable
through the API, since MongoDB keeps ids unique within a collection. -/
def countById (c : List Doc) (id : String) : Nat :=
  (c.filter (fun d => isMatch d id)).length

/-- Core of updateOne on the id filter: merge the patch into the first
matching document. Returns the new collection and the matchedCount, or none
when the server rejects the update document for trying to change the
immutable id field; a handler's catch clause turns that rejection into a
500 response. -/
def applyUpdate : List Doc → String → Doc → Option (List Doc × Nat)
  | [], _, _ => some ([], 0)
  | d :: rest, id, patch =>
    if isMatch d id then
      match patch.get "_id" with
      | none => some (d.setMany patch :: rest, 1)
      | some v =>
        if d.get "_id" == some v then some (d.setMany patch :: rest, 1) else none
    else (applyUpdate rest id patch).map (fun r => (d :: r.1, r.2))

/-- updateOne with a set patch. MongoDB rejects an empty set document, which
the driver surfaces as a thrown error (none here). -/
def updateOne (c : List Doc) (id : String) (patch : Doc) : Option (List Doc × Nat) :=
  if patch.isEmpty then none else applyUpdate c id patch

/-- deleteOne on the id filter: remove the first matching document, returning
the collection and the deletedCount. -/
def deleteFirst : List Doc → String → List Doc × Nat
  | [], _ => ([], 0)
  | d :: rest, id =>
    if isMatch d id then (rest, 1)
    else (d :: (deleteFirst rest id).1, (deleteFirst rest id).2)

/-- Hexadecimal digit test used by the ObjectId format check. -/
def isHexChar (c : Char) : Bool :=
  c.isDigit || ('a' ≤ c && c ≤ 'f') || ('A' ≤ c && c ≤ 'F')

/-- Embeds ObjectId.isValid on strings: a structurally valid identifier is a
24-character hexadecimal token. -/
def isValidId (s : String) : Bool :=
  s.length == 24 && s.toList.all isHexChar

/-- Lower-case hexadecimal digit for n below 16. -/
def hexDigit (n : Nat) : Char :=
  if n < 10 then Char.ofNat (48 + n) else Char.ofNat (87 + n)

/-- The store-assigned identifier for the k-th insertion: a 24-character
hexadecimal rendering of k. ObjectIds are opaque unique tokens; only their
freshness and structural validity matter to the handlers. -/
def genId (k : Nat) : String :=
  String.mk ((List.range 24).map (fun i => hexDigit (k / 16 ^ i % 16)))

/-- JavaScript Number conversion on the values occurring here; non-numeric
strings give NaN, the empty string gives 0. -/
def jsNumber : Value → Value
  | .num n => .num n
  | .str s => if s == "" then .num 0 else
      match s.toInt? with
      | some n => .num n
      | none => .nan
  | .bool b => .num (if b then 1 else 0)
  | .null => .num 0
  | .time ms => .num ms
  | .oid _ => .nan
  | .nan => .nan

/-- The database handle: the four collections, plus the counter backing
fresh ObjectId generation. -/
structure DB where
  patients : List Doc
  doctors : List Doc
  departments : List Doc
  appointments : List Doc
  nextId : Nat
deriving DecidableEq, Repr

/-- An empty store. -/
def dbEmpty : DB := ⟨[], [], [], [], 0⟩

/-- The JSON responses the route handlers produce. -/
inductive Resp where
  | list (docs : List Doc)
  | doc (d : Doc)
  | created (message : String) (id : String)
  | okMsg (message : String)
  | err (status : Nat) (message : String)
  | unauthenticated
deriving DecidableEq, Repr

/-- HTTP status carried by a response. -/
def Resp.status : Resp → Nat
  | .list _ => 200
  | .doc _ => 200
  | .created _ _ => 201
  | .okMsg _ => 200
  | .err s _ => s
  | .unauthenticated => 401

/-- Store operations a handler issues, in order. -/
inductive StoreOp where
  | findAll (coll : String)
  | findOne (coll : String) (id : String)
  | insertOne (coll : String)
  | updOne (coll : String) (id : String)
  | delOne (coll : String) (id : String)
deriving DecidableEq, Repr

/-- A handler's outcome: the response, the connection state after the call
and the store operations performed. -/
abbrev Outcome := Resp × Option DB × List StoreOp

/-! db/connect.js (src/unnamed/part_000): module-level connection state. -/

/-- Result of the store-handle accessor. -/
inductive GetDBResult where
  | ok (db : DB)
  | notInitialized
deriving DecidableEq, Repr

/-- Embeds getDB from db/connect.js: throws when the module-level db slot has
not been filled by connectDB yet, returns the handle otherwise. -/
def getDB : Option DB → GetDBResult
  | none => .notInitialized
  | some db => .ok db

/-- Embeds connectDB from db/connect.js: on success the module-level db slot
holds the handle obtained from the client, whatever it held before. -/
def connectDB (handle : DB) (_prev : Option DB) : Option DB :=
  some handle

/-! routes/patients.js — the patients router mounted by the server. Its
create requires firstName, lastName, age and phone, and none of its routes
wire the authentication middleware. -/

/-- Required-field truthiness check of the patients create handler. -/
def patientRequiredOk (b : Doc) : Bool :=
  truthyOpt (b.get "firstName") && truthyOpt (b.get "lastName") &&
  truthyOpt (b.get "age") && truthyOpt (b.get "phone")

/-- Embeds routes/patients.js GET /. -/
def patientsList (conn : Option DB) : Outcome :=
  match conn with
  | none => (.err 500 "Failed to fetch patients", none, [])
  | some db => (.list db.patients, some db, [.findAll "patients"])

/-- Embeds routes/patients.js GET /:id. -/
def patientsGetById (conn : Option DB) (id : String) : Outcome :=
  match conn with
  | none => (.err 500 "Failed to fetch patient", none, [])
  | some db =>
    if !isValidId id then (.err 400 "Invalid patient ID format", some db, [])
    else
      match findById db.patients id with
      | none => (.err 404 "Patient not found", some db, [.findOne "patients" id])
      | some d => (.doc d, some db, [.findOne "patients" id])

/-- The newPatient object routes/patients.js POST builds and inserts,
together with the id the store assigns to it. -/
def newPatientDoc (body : Doc) (newId : String) : Doc :=
  [("_id", .oid newId),
   ("firstName", (body.get "firstName").getD .null),
   ("lastName", (body.get "lastName").getD .null),
   ("age", (body.get "age").getD .null),
   ("phone", (body.get "phone").getD .null),
   ("address",
     if truthyOpt (body.get "address") then (body.get "address").getD .null
     else .str "")]

/-- Embeds routes/patients.js POST /. -/
def patientsCreate (conn : Option DB) (body : Doc) : Outcome :=
  match conn with
  | none => (.err 500 "Failed to create patient", none, [])
  | some db =>
    if !patientRequiredOk body then
      (.err 400 "firstName, lastName, age, phone are required", some db, [])
    else
      (.created "Patient created" (genId db.nextId),
       some { db with
                patients := db.patients ++ [newPatientDoc body (genId db.nextId)],
                nextId := db.nextId + 1 },
       [.insertOne "patients"])

/-- Embeds routes/patients.js PUT /:id: the raw body is passed to the store
as the set patch, with no stripping and no empty-payload check. -/
def patientsUpdate (conn : Option DB) (id : String) (body : Doc) : Outcome :=
  match conn with
  | none => (.err 500 "Failed to update patient", none, [])
  | some db =>
    if !isValidId id then (.err 400 "Invalid patient ID format", some db, [])
    else
      match updateOne db.patients id body with
      | none => (.err 500 "Failed to update patient", some db, [.updOne "patients" id])
      | some (c, matched) =>
        if matched = 0 then (.err 404 "Patient not found", some db, [.updOne "patients" id])
        else (.okMsg "Patient updated successfully",
              some { db with patients := c }, [.updOne "patients" id])

/-- Embeds routes/patients.js DELETE /:id. -/
def patientsDelete (conn : Option DB) (id : String) : Outcome :=
  match conn with
  | none => (.err 500 "Failed to delete patient", none, [])
  | some db =>
    if !isValidId id then (.err 400 "Invalid patient ID format", some db, [])
    else
      let r := deleteFirst db.patients id
      if r.2 = 0 then (.err 404 "Patient not found", some db, [.delOne "patients" id])
      else (.okMsg "Patient deleted successfully",
            some { db with patients := r.1 }, [.delOne "patients" id])

/-! routes/doctors.js (second document of src/routes/appointments.js). -/

/-- Required-field truthiness check of the doctors create handler. -/
def doctorRequiredOk (b : Doc) : Bool :=
  truthyOpt (b.get "name") && truthyOpt (b.get "specialization") &&
  truthyOpt (b.get "phoneNumber")

/-- Embeds the doctors router GET /. -/
def doctorsList (conn : Option DB) : Outcome :=
  match conn with
  | none => (.err 500 "Failed to fetch doctors", none, [])
  | some db => (.list db.doctors, some db, [.findAll "doctors"])

/-- Embeds the doctors router GET /:id. -/
def doctorsGetById (conn : Option DB) (id : String) : Outcome :=
  match conn with
  | none => (.err 500 "Failed to fetch doctor", none, [])
  | some db =>
    if !isValidId id then (.err 400 "Invalid doctor ID format", some db, [])
    else
      match findById db.doctors id with
      | none => (.err 404 "Doctor not found", some db, [.findOne "doctors" id])
      | some d => (.doc d, some db, [.findOne "doctors" id])

/-- The newDoctor object the doctors POST builds and inserts. -/
def newDoctorDoc (body : Doc) (newId : String) : Doc :=
  [("_id", .oid newId),
   ("name", (body.get "name").getD .null),
   ("specialization", (body.get "specialization").getD .null),
   ("phoneNumber", (body.get "phoneNumber").getD .null),
   ("department",
     if truthyOpt (body.get "department") then (body.get "department").getD .null
     else .str "")]

/-- Embeds the doctors router POST /. -/
def doctorsCreate (conn : Option DB) (body : Doc) : Outcome :=
  match conn with
  | none => (.err 500 "Failed to create doctor", none, [])
  | some db =>
    if !doctorRequiredOk body then
      (.err 400 "name, specialization, phone number are required", some db, [])
    else
      (.created "Doctor created" (genId db.nextId),
       some { db with
                doctors := db.doctors ++ [newDoctorDoc body (genId db.nextId)],
                nextId := db.nextId + 1 },
       [.insertOne "doctors"])

/-- Embeds the doctors router PUT /:id: the raw body is the set patch, with
no stripping and no empty-payload check. -/
def doctorsUpdate (conn : Option DB) (id : String) (body : Doc) : Outcome :=
  match conn with
  | none => (.err 500 "Failed to update doctor", none, [])
  | some db =>
    if !isValidId id then (.err 400 "Invalid doctor ID format", some db, [])
    else
      match updateOne db.doctors id body with
      | none => (.err 500 "Failed to update doctor", some db, [.updOne "doctors" id])
      | some (c, matched) =>
        if matched = 0 then (.err 404 "Doctor not found", some db, [.updOne "doctors" id])
        else (.okMsg "Doctor updated successfully",
              some { db with doctors := c }, [.updOne "doctors" id])

/-- Embeds the doctors router DELETE /:id. -/
def doctorsDelete (conn : Option DB) (id : String) : Outcome :=
  match conn with
  | none => (.err 500 "Failed to delete doctor", none, [])
  | some db =>
    if !isValidId id then (.err 400 "Invalid doctor ID format", some db, [])
    else
      let r := deleteFirst db.doctors id
      if r.2 = 0 then (.err 404 "Doctor not found", some db, [.delOne "doctors" id])
      else (.okMsg "Doctor deleted successfully",
            some { db with doctors := r.1 }, [.delOne "doctors" id])

/-! routes/departments.js. -/

/-- Rest-destructuring that drops the immutable keys before an update. -/
def stripImmutable (b : Doc) : Doc :=
  b.filter (fun p => !(p.1 == "_id" || p.1 == "createdAt" || p.1 == "updatedAt"))

/-- Required-field truthiness check of the departments create handler. -/
def departmentRequiredOk (b : Doc) : Bool :=
  truthyOpt (b.get "name") && truthyOpt (b.get "description") &&
  truthyOpt (b.get "floor") && truthyOpt (b.get "headDoctor")

/-- Embeds routes/departments.js GET /. -/
def departmentsList (conn : Option DB) : Outcome :=
  match conn with
  | none => (.err 500 "Failed to fetch departments", none, [])
  | some db => (.list db.departments, some db, [.findAll "departments"])

/-- Embeds routes/departments.js GET /:id. -/
def departmentsGetById (conn : Option DB) (id : String) : Outcome :=
  match conn with
  | none => (.err 500 "Failed to fetch department", none, [])
  | some db =>
    if !isValidId id then (.err 400 "Invalid department ID format", some db, [])
    else
      match findById db.departments id with
      | none => (.err 404 "Department not found", some db, [.findOne "departments" id])
      | some d => (.doc d, some db, [.findOne "departments" id])

/-- The newDepartment object routes/departments.js POST builds and inserts:
floor coerced with Number, createdAt and updatedAt stamped with the current
time. -/
def newDepartmentDoc (body : Doc) (newId : String) (now : Nat) : Doc :=
  [("_id", .oid newId),
   ("name", (body.get "name").getD .null),
   ("description", (body.get "description").getD .null),
   ("floor", jsNumber ((body.get "floor").getD .null)),
   ("headDoctor", (body.get "headDoctor").getD .null),
   ("createdAt", .time now),
   ("updatedAt", .time now)]

/-- Embeds routes/departments.js POST /: coerces floor with Number and stamps
createdAt and updatedAt with the current time. -/
def departmentsCreate (conn : Option DB) (body : Doc) (now : Nat) : Outcome :=
  match conn with
  | none => (.err 500 "Failed to create department", none, [])
  | some db =>
    if !departmentRequiredOk body then
      (.err 400 "name, description, floor, headDoctor are required", some db, [])
    else
      (.created "Department created successfully" (genId db.nextId),
       some { db with
                departments := db.departments ++ [newDepartmentDoc body (genId db.nextId) now],
                nextId := db.nextId + 1 },
       [.insertOne "departments"])

/-- Embeds routes/departments.js PUT /:id: strips the immutable keys, rejects
an empty remaining payload, refreshes updatedAt, then merges. -/
def departmentsUpdate (conn : Option DB) (id : String) (body : Doc) (now : Nat) : Outcome :=
  match conn with
  | none => (.err 500 "Failed to update department", none, [])
  | some db =>
    if !isValidId id then (.err 400 "Invalid department ID format", some db, [])
    else
      let updatedData := stripImmutable body
      if updatedData.isEmpty then (.err 400 "Update data cannot be empty", some db, [])
      else
        match updateOne db.departments id (updatedData ++ [("updatedAt", .time now)]) with
        | none => (.err 500 "Failed to update department", some db, [.updOne "departments" id])
        | some (c, matched) =>
          if matched = 0 then
            (.err 404 "Department not found", some db, [.updOne "departments" id])
          else (.okMsg "Department updated successfully",
                some { db with departments := c }, [.updOne "departments" id])

/-- Embeds routes/departments.js DELETE /:id. -/
def departmentsDelete (conn : Option DB) (id : String) : Outcome :=
  match conn with
  | none => (.err 500 "Failed to delete department", none, [])
  | some db =>
    if !isValidId id then (.err 400 "Invalid department ID format", some db, [])
    else
      let r := deleteFirst db.departments id
      if r.2 = 0 then (.err 404 "Department not found", some db, [.delOne "departments" id])
      else (.okMsg "Department deleted successfully",
            some { db with departments := r.1 }, [.delOne "departments" id])

/-! routes/appointments.js. -/

/-- Required-field truthiness check of the appointments create handler. -/
def appointmentRequiredOk (b : Doc) : Bool :=
  truthyOpt (b.get "appointmentDate") && truthyOpt (b.get "appointmentTime") &&
  truthyOpt (b.get "reason") && truthyOpt (b.get "status")

/-- Embeds routes/appointments.js GET /. -/
def appointmentsList (conn : Option DB) : Outcome :=
  match conn with
  | none => (.err 500 "Failed to fetch appointments", none, [])
  | some db => (.list db.appointments, some db, [.findAll "appointments"])

/-- Embeds routes/appointments.js GET /:id. -/
def appointmentsGetById (conn : Option DB) (id : String) : Outcome :=
  match conn with
  | none => (.err 500 "Invalid appointment ID", none, [])
  | some db =>
    if !isValidId id then (.err 400 "Invalid appointment ID format", some db, [])
    else
      match findById db.appointments id with
      | none => (.err 404 "appointment not found", some db, [.findOne "appointments" id])
      | some d => (.doc d, some db, [.findOne "appointments" id])

/-- The newappointment object routes/appointments.js POST builds and
inserts: createdAt and updatedAt stamped with the current time. -/
def newAppointmentDoc (body : Doc) (newId : String) (now : Nat) : Doc :=
  [("_id", .oid newId),
   ("appointmentDate", (body.get "appointmentDate").getD .null),
   ("appointmentTime", (body.get "appointmentTime").getD .null),
   ("reason", (body.get "reason").getD .null),
   ("status", (body.get "status").getD .null),
   ("createdAt", .time now),
   ("updatedAt", .time now)]

/-- Embeds routes/appointments.js POST /: stamps createdAt and updatedAt. -/
def appointmentsCreate (conn : Option DB) (body : Doc) (now : Nat) : Outcome :=
  match conn with
  | none => (.err 500 "Failed to create appointment", none, [])
  | some db =>
    if !appointmentRequiredOk body then
      (.err 400 "appointmentDate, appointmentTime, reason, status are required", some db, [])
    else
      (.created "appointment created Successfullly" (genId db.nextId),
       some { db with
                appointments := db.appointments ++ [newAppointmentDoc body (genId db.nextId) now],
                nextId := db.nextId + 1 },
       [.insertOne "appointments"])

/-- Embeds routes/appointments.js PUT /:id: strips the immutable keys,
rejects an empty remaining payload, refreshes updatedAt, then merges. -/
def appointmentsUpdate (conn : Option DB) (id : String) (body : Doc) (now : Nat) : Outcome :=
  match conn with
  | none => (.err 500 "Failed to update appointment", none, [])
  | some db =>
    if !isValidId id then (.err 400 "Invalid appointment ID format", some db, [])
    else
      let updatedData := stripImmutable body
      if updatedData.isEmpty then (.err 400 "Update data cannot be empty", some db, [])
      else
        match updateOne db.appointments id (updatedData ++ [("updatedAt", .time now)]) with
        | none => (.err 500 "Failed to update appointment", some db, [.updOne "appointments" id])
        | some (c, matched) =>
          if matched = 0 then
            (.err 404 "Appointment not found", some db, [.updOne "appointments" id])
          else (.okMsg "Appointment updated successfully",
                some { db with appointments := c }, [.updOne "appointments" id])

/-- Embeds routes/appointments.js DELETE /:id. -/
def appointmentsDelete (conn : Option DB) (id : String) : Outcome :=
  match conn with
  | none => (.err 500 "Failed to delete appointment", none, [])
  | some db =>
    if !isValidId id then (.err 400 "Invalid appointment ID format", some db, [])
    else
      let r := deleteFirst db.appointments id
      if r.2 = 0 then (.err 404 "appointment not found", some db, [.delOne "appointments" id])
      else (.okMsg "appointment deleted successfully",
            some { db with appointments := r.1 }, [.delOne "appointments" id])

/-! Route wiring: middleware and mounting as in server.js. -/

/-- Modelled from the spec: the middleware file required as
middleware/isAuthenticated is not in the source tree. Per specification
section 4.3 the gate admits a request exactly when it carries an established
session identity, and otherwise short-circuits with an Unauthenticated
failure before the handler runs, hence before any store access. -/
def gate (auth : Bool) (conn : Option DB) (run : Option DB → Outcome) : Outcome :=
  if auth then run conn else (.unauthenticated, conn, [])

/-- patients GET / as mounted: no authentication middleware. -/
def getPatientsRoute (_auth : Bool) (conn : Option DB) : Outcome :=
  patientsList conn

/-- patients GET /:id as mounted: no authentication middleware. -/
def getPatientByIdRoute (_auth : Bool) (conn : Option DB) (id : String) : Outcome :=
  patientsGetById conn id

/-- patients POST / as mounted: routes/patients.js wires no authentication
middleware on this route. -/
def postPatientsRoute (_auth : Bool) (conn : Option DB) (body : Doc) : Outcome :=
  patientsCreate conn body

/-- patients PUT /:id as mounted: no authentication middleware. -/
def putPatientsRoute (_auth : Bool) (conn : Option DB) (id : String) (body : Doc) : Outcome :=
  patientsUpdate conn id body

/-- patients DELETE /:id as mounted: no authentication middleware. -/
def deletePatientsRoute (_auth : Bool) (conn : Option DB) (id : String) : Outcome :=
  patientsDelete conn id

/-- doctors GET / as mounted. -/
def getDoctorsRoute (_auth : Bool) (conn : Option DB) : Outcome :=
  doctorsList conn

/-- doctors GET /:id as mounted. -/
def getDoctorByIdRoute (_auth : Bool) (conn : Option DB) (id : String) : Outcome :=
  doctorsGetById conn id

/-- doctors POST / as mounted: gated. -/
def postDoctorsRoute (auth : Bool) (conn : Option DB) (body : Doc) : Outcome :=
  gate auth conn (fun c => doctorsCreate c body)

/-- doctors PUT /:id as mounted: gated. -/
def putDoctorsRoute (auth : Bool) (conn : Option DB) (id : String) (body : Doc) : Outcome :=
  gate auth conn (fun c => doctorsUpdate c id body)

/-- doctors DELETE /:id as mounted: gated. -/
def deleteDoctorsRoute (auth : Bool) (conn : Option DB) (id : String) : Outcome :=
  gate auth conn (fun c => doctorsDelete c id)

/-- departments GET / as mounted. -/
def getDepartmentsRoute (_auth : Bool) (conn : Option DB) : Outcome :=
  departmentsList conn

/-- departments GET /:id as mounted. -/
def getDepartmentByIdRoute (_auth : Bool) (conn : Option DB) (id : String) : Outcome :=
  departmentsGetById conn id

/-- departments POST / as mounted: gated. -/
def postDepartmentsRoute (auth : Bool) (conn : Option DB) (body : Doc) (now : Nat) : Outcome :=
  gate auth conn (fun c => departmentsCreate c body now)

/-- departments PUT /:id as mounted: gated. -/
def putDepartmentsRoute (auth : Bool) (conn : Option DB) (id : String) (body : Doc)
    (now : Nat) : Outcome :=
  gate auth conn (fun c => departmentsUpdate c id body now)

/-- departments DELETE /:id as mounted: gated. -/
def deleteDepartmentsRoute (auth : Bool) (conn : Option DB) (id : String) : Outcome :=
  gate auth conn (fun c => departmentsDelete c id)

/-- appointments GET / as mounted. -/
def getAppointmentsRoute (_auth : Bool) (conn : Option DB) : Outcome :=
  appointmentsList conn

/-- appointments GET /:id as mounted. -/
def getAppointmentByIdRoute (_auth : Bool) (conn : Option DB) (id : String) : Outcome :=
  appointmentsGetById conn id

/-- appointments POST / as mounted: gated. -/
def postAppointmentsRoute (auth : Bool) (conn : Option DB) (body : Doc) (now : Nat) : Outcome :=
  gate auth conn (fun c => appointmentsCreate c body now)

/-- appointments PUT /:id as mounted: gated. -/
def putAppointmentsRoute (auth : Bool) (conn : Option DB) (id : String) (body : Doc)
    (now : Nat) : Outcome :=
  gate auth conn (fun c => appointmentsUpdate c id body now)

/-- appointments DELETE /:id as mounted: gated. -/
def deleteAppointmentsRoute (auth : Bool) (conn : Option DB) (id : String) : Outcome :=
  gate auth conn (fun c => appointmentsDelete c id)

/-- Required-field names of the patients create handler. -/
def patientRequiredFields : List String := ["firstName", "lastName", "age", "phone"]

/-- Required-field names of the doctors create handler. -/
def doctorRequiredFields : List String := ["name", "specialization", "phoneNumber"]

/-- Required-field names of the departments create handler. -/
def departmentRequiredFields : List String := ["name", "description", "floor", "headDoctor"]

/-- Required-field names of the appointments create handler. -/
def appointmentRequiredFields : List String :=
  ["appointmentDate", "appointmentTime", "reason", "status"]

/-! Basic facts about documents and the collection operations. -/

theorem get_cons (p : String × Value) (rest : Doc) (k : String) :
    Doc.get (p :: rest) k = if p.1 = k then some p.2 else Doc.get rest k := by
  by_cases h : p.1 = k
  · simp [Doc.get, List.find?_cons_of_pos, h]
  · simp only [Doc.get, h, if_false]
    rw [List.find?_cons_of_neg]
    simpa using h

theorem set1_cons (p : String × Value) (rest : Doc) (k : String) (v : Value) :
    Doc.set1 (p :: rest) k v =
      if p.1 = k then (k, v) :: rest else p :: Doc.set1 rest k v := by
  by_cases h : p.1 = k <;> simp [Doc.set1, h]

theorem findById_cons (d : Doc) (rest : List Doc) (id : String) :
    findById (d :: rest) id = if isMatch d id then some d else findById rest id := by
  by_cases h : isMatch d id
  · simp [findById, List.find?_cons_of_pos, h]
  · simp only [findById, h, Bool.false_eq_true, if_false]
    rw [List.find?_cons_of_neg]
    simpa using h

theorem countById_cons (d : Doc) (rest : List Doc) (id : String) :
    countById (d :: rest) id =
      if isMatch d id then countById rest id + 1 else countById rest id := by
  by_cases h : isMatch d id <;> simp [countById, List.filter_cons, h]

theorem get_set1_same (d : Doc) (k : String) (v : Value) :
    (Doc.set1 d k v).get k = some v := by
  induction d with
  | nil => simp [Doc.set1, get_cons]
  | cons p rest ih =>
    rw [set1_cons]
    by_cases h : p.1 = k
    · simp [h, get_cons]
    · simp [h, get_cons, ih]

theorem get_set1_ne (d : Doc) (k kr : String) (v : Value) (h : kr ≠ k) :
    (Doc.set1 d k v).get kr = d.get kr := by
  induction d with
  | nil => simp [Doc.set1, get_cons, Ne.symm h]
  | cons p rest ih =>
    obtain ⟨pk, pv⟩ := p
    rw [set1_cons]
    by_cases hp : (pk, pv).1 = k
    · rw [if_pos hp, get_cons, get_cons]
      simp only at hp
      rw [if_neg (show ¬(k, v).1 = kr from fun hh => (Ne.symm h) hh),
        if_neg (show ¬(pk, pv).1 = kr from fun hh => (Ne.symm h) (hp ▸ hh))]
    · rw [if_neg hp, get_cons, get_cons, ih]

theorem get_setMany_of_forall (patch : Doc) (k : String)
    (h : ∀ kv ∈ patch, kv.1 ≠ k) :
    ∀ d : Doc, (d.setMany patch).get k = d.get k := by
  induction patch with
  | nil => intro d; rfl
  | cons kv rest ih =>
    intro d
    have hk : kv.1 ≠ k := h kv (by simp)
    have hrest : ∀ x ∈ rest, x.1 ≠ k := fun x hx => h x (by simp [hx])
    show ((d.set1 kv.1 kv.2).setMany rest).get k = d.get k
    rw [ih hrest]
    exact get_set1_ne d kv.1 k kv.2 (Ne.symm hk)

theorem setMany_append (d : Doc) (p q : Doc) :
    Doc.setMany d (p ++ q) = Doc.setMany (Doc.setMany d p) q := by
  simp [Doc.setMany, List.foldl_append]

theorem forall_of_get_eq_none (d : Doc) (k : String) (h : d.get k = none) :
    ∀ kv ∈ d, kv.1 ≠ k := by
  induction d with
  | nil => simp
  | cons kv rest ih =>
    rw [get_cons] at h
    by_cases hk : kv.1 = k
    · rw [if_pos hk] at h; exact absurd h (by simp)
    · rw [if_neg hk] at h
      intro x hx
      rcases List.mem_cons.mp hx with rfl | hmem
      · exact hk
      · exact ih h x hmem

theorem get_append_of_none (a b : Doc) (k : String) (h : Doc.get a k = none) :
    Doc.get (a ++ b) k = Doc.get b k := by
  induction a with
  | nil => rfl
  | cons kv rest ih =>
    rw [get_cons] at h
    by_cases hk : kv.1 = k
    · rw [if_pos hk] at h; exact absurd h (by simp)
    · rw [if_neg hk] at h
      rw [List.cons_append, get_cons, if_neg hk]
      exact ih h

theorem stripImmutable_mem (b : Doc) (kv : String × Value) (h : kv ∈ stripImmutable b) :
    kv.1 ≠ "_id" ∧ kv.1 ≠ "createdAt" ∧ kv.1 ≠ "updatedAt" := by
  rcases List.mem_filter.mp h with ⟨-, hp⟩
  simp only [Bool.not_eq_true', Bool.or_eq_false_iff, beq_eq_false_iff_ne] at hp
  exact ⟨hp.1.1, hp.1.2, hp.2⟩

theorem findById_append_of_none (c c2 : List Doc) (id : String)
    (h : findById c id = none) :
    findById (c ++ c2) id = findById c2 id := by
  induction c with
  | nil => rfl
  | cons d rest ih =>
    rw [findById_cons] at h
    by_cases hm : isMatch d id
    · rw [if_pos hm] at h; exact absurd h (by simp)
    · rw [if_neg hm] at h
      rw [List.cons_append, findById_cons, if_neg hm]
      exact ih h

theorem isMatch_setMany (d : Doc) (id : String) (patch : Doc)
    (hid : patch.get "_id" = none) :
    isMatch (d.setMany patch) id = isMatch d id := by
  unfold isMatch
  rw [get_setMany_of_forall patch "_id" (forall_of_get_eq_none patch "_id" hid) d]

theorem findById_eq_none_of_countById_eq_zero (c : List Doc) (id : String)
    (h : countById c id = 0) : findById c id = none := by
  induction c with
  | nil => rfl
  | cons d rest ih =>
    rw [countById_cons] at h
    by_cases hm : isMatch d id
    · rw [if_pos hm] at h; omega
    · rw [if_neg hm] at h
      rw [findById_cons, if_neg hm]
      exact ih h

theorem deleteFirst_of_countById_one (c : List Doc) (id : String)
    (h : countById c id = 1) :
    (deleteFirst c id).2 = 1 ∧ countById (deleteFirst c id).1 id = 0 := by
  induction c with
  | nil => simp [countById] at h
  | cons d rest ih =>
    rw [countById_cons] at h
    by_cases hm : isMatch d id
    · rw [if_pos hm] at h
      have h0 : countById rest id = 0 := by omega
      simp [deleteFirst, hm, h0]
    · rw [if_neg hm] at h
      have := ih h
      simp only [deleteFirst, hm, Bool.false_eq_true, if_false]
      exact ⟨this.1, by rw [countById_cons, if_neg hm]; exact this.2⟩

theorem deleteFirst_of_countById_zero (c : List Doc) (id : String)
    (h : countById c id = 0) : deleteFirst c id = (c, 0) := by
  induction c with
  | nil => rfl
  | cons d rest ih =>
    rw [countById_cons] at h
    by_cases hm : isMatch d id
    · rw [if_pos hm] at h; omega
    · rw [if_neg hm] at h
      simp [deleteFirst, hm, ih h]

theorem applyUpdate_append (c c2 : List Doc) (id : String) (patch : Doc)
    (h : findById c id = none) :
    applyUpdate (c ++ c2) id patch =
      (applyUpdate c2 id patch).map (fun r => (c ++ r.1, r.2)) := by
  induction c with
  | nil =>
    cases hr : applyUpdate c2 id patch with
    | none => simp [hr]
    | some r => simp [hr]
  | cons d rest ih =>
    rw [findById_cons] at h
    by_cases hm : isMatch d id
    · rw [if_pos hm] at h; exact absurd h (by simp)
    · rw [if_neg hm] at h
      rw [List.cons_append, applyUpdate.eq_def]
      simp only [hm, Bool.false_eq_true, if_false]
      rw [ih h]
      cases hr : applyUpdate c2 id patch with
      | none => simp
      | some r => simp

theorem findById_applyUpdate (c : List Doc) (id : String) (patch : Doc)
    (c' : List Doc) (n : Nat) (hid : patch.get "_id" = none)
    (h : applyUpdate c id patch = some (c', n)) (hn : n ≠ 0) :
    ∃ d, findById c id = some d ∧ findById c' id = some (d.setMany patch) := by
  induction c generalizing c' n with
  | nil =>
    exfalso
    simp only [applyUpdate, Option.some.injEq, Prod.mk.injEq] at h
    exact hn h.2.symm
  | cons d rest ih =>
    rw [applyUpdate.eq_def] at h
    by_cases hm : isMatch d id
    · simp only [hm, if_true, hid, Option.some.injEq, Prod.mk.injEq] at h
      refine ⟨d, by rw [findById_cons, if_pos hm], ?_⟩
      rw [← h.1]
      have hm' : isMatch (d.setMany patch) id = true := by
        rw [isMatch_setMany d id patch hid]; exact hm
      rw [findById_cons, if_pos hm']
    · simp only [hm, Bool.false_eq_true, if_false] at h
      cases hr : applyUpdate rest id patch with
      | none => rw [hr] at h; simp at h
      | some r =>
        rw [hr] at h
        simp only [Option.map_some', Option.some.injEq, Prod.mk.injEq] at h
        obtain ⟨hc', hn'⟩ := h
        obtain ⟨d0, hf, hf'⟩ := ih r.1 r.2 hr (by rw [hn']; exact hn)
        refine ⟨d0, ?_, ?_⟩
        · rw [findById_cons, if_neg hm]; exact hf
        · rw [← hc', findById_cons, if_neg hm]; exact hf'

theorem get_eq_none_of_forall (d : Doc) (k : String) (h : ∀ kv ∈ d, kv.1 ≠ k) :
    d.get k = none := by
  induction d with
  | nil => rfl
  | cons kv rest ih =>
    rw [get_cons, if_neg (h kv (by simp))]
    exact ih fun x hx => h x (by simp [hx])

theorem isEmpty_append_singleton (l : List (String × Value)) (x : String × Value) :
    (l ++ [x]).isEmpty = false := by
  cases l <;> rfl

theorem stripImmutable_get_id (b : Doc) : (stripImmutable b).get "_id" = none :=
  get_eq_none_of_forall _ _ (fun kv hkv => (stripImmutable_mem b kv hkv).1)

theorem patch_get_id_none (b : Doc) (t : Nat) :
    (stripImmutable b ++ [("updatedAt", Value.time t)]).get "_id" = none := by
  rw [get_append_of_none _ _ _ (stripImmutable_get_id b)]
  rfl

theorem patch_forall_ne_createdAt (b : Doc) (t : Nat) :
    ∀ kv ∈ stripImmutable b ++ [("updatedAt", Value.time t)], kv.1 ≠ "createdAt" := by
  intro kv hkv
  rcases List.mem_append.mp hkv with h | h
  · exact (stripImmutable_mem b kv h).2.1
  · rcases List.mem_singleton.mp h with rfl
    simp

theorem isHexChar_hexDigit (n : Nat) (h : n < 16) : isHexChar (hexDigit n) = true := by
  interval_cases n <;> decide

theorem isValidId_genId (k : Nat) : isValidId (genId k) = true := by
  unfold isValidId genId
  rw [Bool.and_eq_true]
  refine ⟨by simp [String.length], ?_⟩
  rw [List.all_eq_true]
  intro c hc
  have hc' : c ∈ (List.range 24).map (fun i => hexDigit (k / 16 ^ i % 16)) := hc
  obtain ⟨i, -, rfl⟩ := List.mem_map.mp hc'
  exact isHexChar_hexDigit _ (Nat.mod_lt _ (by norm_num))

theorem newPatientDoc_isMatch (body : Doc) (i : String) :
    isMatch (newPatientDoc body i) i = true := by
  simp [newPatientDoc, isMatch, get_cons]

theorem newPatientDoc_address (body : Doc) (i : String) (h : body.get "address" = none) :
    (newPatientDoc body i).get "address" = some (.str "") := by
  simp [newPatientDoc, get_cons, h, truthyOpt]

theorem newDoctorDoc_isMatch (body : Doc) (i : String) :
    isMatch (newDoctorDoc body i) i = true := by
  simp [newDoctorDoc, isMatch, get_cons]

theorem newDoctorDoc_department (body : Doc) (i : String)
    (h : body.get "department" = none) :
    (newDoctorDoc body i).get "department" = some (.str "") := by
  simp [newDoctorDoc, get_cons, h, truthyOpt]

theorem newDepartmentDoc_isMatch (body : Doc) (i : String) (now : Nat) :
    isMatch (newDepartmentDoc body i now) i = true := by
  simp [newDepartmentDoc, isMatch, get_cons]

theorem newDepartmentDoc_createdAt (body : Doc) (i : String) (now : Nat) :
    (newDepartmentDoc body i now).get "createdAt" = some (.time now) := by
  simp [newDepartmentDoc, get_cons]

theorem newDepartmentDoc_updatedAt (body : Doc) (i : String) (now : Nat) :
    (newDepartmentDoc body i now).get "updatedAt" = some (.time now) := by
  simp [newDepartmentDoc, get_cons]

theorem newAppointmentDoc_isMatch (body : Doc) (i : String) (now : Nat) :
    isMatch (newAppointmentDoc body i now) i = true := by
  simp [newAppointmentDoc, isMatch, get_cons]

theorem newAppointmentDoc_createdAt (body : Doc) (i : String) (now : Nat) :
    (newAppointmentDoc body i now).get "createdAt" = some (.time now) := by
  simp [newAppointmentDoc, get_cons]

theorem newAppointmentDoc_updatedAt (body : Doc) (i : String) (now : Nat) :
    (newAppointmentDoc body i now).get "updatedAt" = some (.time now) := by
  simp [newAppointmentDoc, get_cons]

theorem updateOne_fresh_append (c : List Doc) (d : Doc) (id : String) (patch : Doc)
    (hf : findById c id = none) (hm : isMatch d id = true) (hid : patch.get "_id" = none)
    (hne : patch.isEmpty = false) :
    updateOne (c ++ [d]) id patch = some (c ++ [d.setMany patch], 1) := by
  rw [updateOne, if_neg (by simp [hne]), applyUpdate_append c [d] id patch hf,
    applyUpdate.eq_def]
  simp [hm, hid]

theorem findById_fresh_append (c : List Doc) (d : Doc) (id : String)
    (hf : findById c id = none) (hm : isMatch d id = true) :
    findById (c ++ [d]) id = some d := by
  rw [findById_append_of_none _ _ _ hf, findById_cons, if_pos hm]

/-! Claim theorems. -/

/-- C9: the store-handle accessor fails with a NotInitialized error whenever
it is called before the connect step has completed (the module-level slot
still empty) and returns the established handle whenever it is called after
connect completed. -/
theorem getDB_guards_initialization :
    getDB none = .notInitialized ∧
    ∀ (handle : DB) (prev : Option DB), getDB (connectDB handle prev) = .ok handle :=
  ⟨rfl, fun _ _ => rfl⟩

/-- C2: in every handler operation that takes a document identifier, a
structurally invalid identifier yields a 400 client error, no store
operation is issued and the connection state — hence every stored
collection — is unchanged. Stated over an established connection, the only
state in which the server accepts traffic. -/
theorem invalid_id_rejected_without_store (db : DB) (id : String) (body : Doc) (now : Nat)
    (h : isValidId id = false) :
    patientsGetById (some db) id = (.err 400 "Invalid patient ID format", some db, []) ∧
    patientsUpdate (some db) id body = (.err 400 "Invalid patient ID format", some db, []) ∧
    patientsDelete (some db) id = (.err 400 "Invalid patient ID format", some db, []) ∧
    doctorsGetById (some db) id = (.err 400 "Invalid doctor ID format", some db, []) ∧
    doctorsUpdate (some db) id body = (.err 400 "Invalid doctor ID format", some db, []) ∧
    doctorsDelete (some db) id = (.err 400 "Invalid doctor ID format", some db, []) ∧
    departmentsGetById (some db) id = (.err 400 "Invalid department ID format", some db, []) ∧
    departmentsUpdate (some db) id body now =
      (.err 400 "Invalid department ID format", some db, []) ∧
    departmentsDelete (some db) id = (.err 400 "Invalid department ID format", some db, []) ∧
    appointmentsGetById (some db) id =
      (.err 400 "Invalid appointment ID format", some db, []) ∧
    appointmentsUpdate (some db) id body now =
      (.err 400 "Invalid appointment ID format", some db, []) ∧
    appointmentsDelete (some db) id = (.err 400 "Invalid appointment ID format", some db, []) := by
  refine ⟨?_, ?_, ?_, ?_, ?_, ?_, ?_, ?_, ?_, ?_, ?_, ?_⟩ <;>
    simp [patientsGetById, patientsUpdate, patientsDelete, doctorsGetById, doctorsUpdate,
      doctorsDelete, departmentsGetById, departmentsUpdate, departmentsDelete,
      appointmentsGetById, appointmentsUpdate, appointmentsDelete, h]

/-- Witness for C2 at the malformed identifier and the empty store. -/
theorem invalid_id_rejected_without_store_witness :
    isValidId "invalid-id" = false ∧
    patientsGetById (some dbEmpty) "invalid-id" =
      (.err 400 "Invalid patient ID format", some dbEmpty, []) :=
  ⟨by decide, (invalid_id_rejected_without_store dbEmpty "invalid-id" [] 0 (by decide)).1⟩

/-- A patient-create body with phone but no phoneNumber field. -/
def patientBody1 : Doc :=
  [("firstName", .str "Ada"), ("lastName", .str "Eze"), ("age", .num 30),
   ("phone", .str "080")]

/-- C1 counterexample: the patients POST route as mounted wires no
authentication middleware, so a request with no admitted session is not
rejected: the create runs, answers 201 and an insert reaches the store. -/
theorem unauthenticated_patient_create_succeeds :
    (postPatientsRoute false (some dbEmpty) patientBody1).1 ≠ Resp.unauthenticated ∧
    (postPatientsRoute false (some dbEmpty) patientBody1).1.status = 201 ∧
    (postPatientsRoute false (some dbEmpty) patientBody1).2.2 =
      [StoreOp.insertOne "patients"] := by
  decide

/-- C1 amended: read routes across all four entities run their handler for
any request, session or not; the mutating routes of the doctors,
departments and appointments routers reject a request without an admitted
session with an Unauthenticated failure, unchanged state and no store
operation; the patients router's mutating routes are mounted without the
gate and run their handler even without a session. -/
theorem auth_gate_asymmetry (conn : Option DB) (id : String) (body : Doc) (now : Nat) :
    (getPatientsRoute false conn = patientsList conn ∧
     getPatientByIdRoute false conn id = patientsGetById conn id ∧
     getDoctorsRoute false conn = doctorsList conn ∧
     getDoctorByIdRoute false conn id = doctorsGetById conn id ∧
     getDepartmentsRoute false conn = departmentsList conn ∧
     getDepartmentByIdRoute false conn id = departmentsGetById conn id ∧
     getAppointmentsRoute false conn = appointmentsList conn ∧
     getAppointmentByIdRoute false conn id = appointmentsGetById conn id) ∧
    (postDoctorsRoute false conn body = (.unauthenticated, conn, []) ∧
     putDoctorsRoute false conn id body = (.unauthenticated, conn, []) ∧
     deleteDoctorsRoute false conn id = (.unauthenticated, conn, []) ∧
     postDepartmentsRoute false conn body now = (.unauthenticated, conn, []) ∧
     putDepartmentsRoute false conn id body now = (.unauthenticated, conn, []) ∧
     deleteDepartmentsRoute false conn id = (.unauthenticated, conn, []) ∧
     postAppointmentsRoute false conn body now = (.unauthenticated, conn, []) ∧
     putAppointmentsRoute false conn id body now = (.unauthenticated, conn, []) ∧
     deleteAppointmentsRoute false conn id = (.unauthenticated, conn, [])) ∧
    (postPatientsRoute false conn body = patientsCreate conn body ∧
     putPatientsRoute false conn id body = patientsUpdate conn id body ∧
     deletePatientsRoute false conn id = patientsDelete conn id) := by
  exact ⟨⟨rfl, rfl, rfl, rfl, rfl, rfl, rfl, rfl⟩,
    ⟨rfl, rfl, rfl, rfl, rfl, rfl, rfl, rfl, rfl⟩, rfl, rfl, rfl⟩

/-- A structurally valid identifier used in concrete runs. -/
def validId1 : String := "64f1a2b3c4d5e6f7a8b9c0d1"

/-- C3 counterexample: a doctors update whose payload is empty, hence empty
after stripping immutable keys, is not rejected with 400 before the store:
the handler issues the update call, the store rejects the empty set
document, and the client sees a 500. -/
theorem empty_doctor_update_reaches_store :
    stripImmutable [] = ([] : Doc) ∧
    doctorsUpdate (some dbEmpty) validId1 [] =
      (.err 500 "Failed to update doctor", some dbEmpty, [.updOne "doctors" validId1]) := by
  decide

/-- C3 amended: department and appointment updates reject a payload that is
empty after stripping the immutable keys with a 400 before any store call,
leaving the state unchanged; patient and doctor updates perform no such
check and pass the raw payload to the store, where an empty payload is
rejected server-side and surfaces as a 500, the collections still
unchanged. -/
theorem empty_update_handling (db : DB) (id : String) (body : Doc) (now : Nat)
    (hv : isValidId id = true) (hs : stripImmutable body = []) :
    departmentsUpdate (some db) id body now =
      (.err 400 "Update data cannot be empty", some db, []) ∧
    appointmentsUpdate (some db) id body now =
      (.err 400 "Update data cannot be empty", some db, []) ∧
    patientsUpdate (some db) id [] =
      (.err 500 "Failed to update patient", some db, [.updOne "patients" id]) ∧
    doctorsUpdate (some db) id [] =
      (.err 500 "Failed to update doctor", some db, [.updOne "doctors" id]) := by
  refine ⟨?_, ?_, ?_, ?_⟩ <;>
    simp [departmentsUpdate, appointmentsUpdate, patientsUpdate, doctorsUpdate,
      updateOne, hv, hs]

/-- Witness for C3's amended statement: a payload holding only an immutable
key strips to the empty set and the department update rejects it with 400. -/
theorem empty_update_handling_witness :
    isValidId validId1 = true ∧
    stripImmutable [("createdAt", Value.time 3)] = ([] : Doc) ∧
    departmentsUpdate (some dbEmpty) validId1 [("createdAt", Value.time 3)] 7 =
      (.err 400 "Update data cannot be empty", some dbEmpty, []) :=
  ⟨by decide, by decide,
   (empty_update_handling dbEmpty validId1 [("createdAt", Value.time 3)] 7
     (by decide) (by decide)).1⟩

/-- C5 counterexample: the patients create accepts a request carrying no
phoneNumber field at all — its required fields are firstName, lastName, age
and phone — answering 201 and inserting a document. -/
theorem patient_create_without_phoneNumber_succeeds :
    Doc.get patientBody1 "phoneNumber" = none ∧
    (patientsCreate (some dbEmpty) patientBody1).1.status = 201 ∧
    ((patientsCreate (some dbEmpty) patientBody1).2.1).map (fun db => db.patients.length) =
      some 1 := by
  decide

/-- C5 amended: with the Patient field list corrected to firstName,
lastName, age, phone — the mounted patients router reads no phoneNumber
field — a create request missing any required field of its entity returns a
400 validation error, issues no store operation and leaves the state, hence
every collection count, unchanged. -/
theorem create_missing_required_field_rejected (db : DB) (body : Doc) (now : Nat) :
    ((∃ f ∈ patientRequiredFields, body.get f = none) →
      patientsCreate (some db) body =
        (.err 400 "firstName, lastName, age, phone are required", some db, [])) ∧
    ((∃ f ∈ doctorRequiredFields, body.get f = none) →
      doctorsCreate (some db) body =
        (.err 400 "name, specialization, phone number are required", some db, [])) ∧
    ((∃ f ∈ departmentRequiredFields, body.get f = none) →
      departmentsCreate (some db) body now =
        (.err 400 "name, description, floor, headDoctor are required", some db, [])) ∧
    ((∃ f ∈ appointmentRequiredFields, body.get f = none) →
      appointmentsCreate (some db) body now =
        (.err 400 "appointmentDate, appointmentTime, reason, status are required",
         some db, [])) := by
  refine ⟨?_, ?_, ?_, ?_⟩ <;> rintro ⟨f, hf, hnone⟩
  · simp only [patientRequiredFields, List.mem_cons, List.not_mem_nil, or_false] at hf
    rcases hf with rfl | rfl | rfl | rfl <;>
      simp [patientsCreate, patientRequiredOk, hnone, truthyOpt]
  · simp only [doctorRequiredFields, List.mem_cons, List.not_mem_nil, or_false] at hf
    rcases hf with rfl | rfl | rfl <;>
      simp [doctorsCreate, doctorRequiredOk, hnone, truthyOpt]
  · simp only [departmentRequiredFields, List.mem_cons, List.not_mem_nil, or_false] at hf
    rcases hf with rfl | rfl | rfl | rfl <;>
      simp [departmentsCreate, departmentRequiredOk, hnone, truthyOpt]
  · simp only [appointmentRequiredFields, List.mem_cons, List.not_mem_nil, or_false] at hf
    rcases hf with rfl | rfl | rfl | rfl <;>
      simp [appointmentsCreate, appointmentRequiredOk, hnone, truthyOpt]

/-- Witness for C5's amended statement: the empty body misses every required
field and all four creates reject it with 400 and no insert. -/
theorem create_missing_required_field_rejected_witness :
    (∃ f ∈ patientRequiredFields, Doc.get [] f = none) ∧
    patientsCreate (some dbEmpty) [] =
      (.err 400 "firstName, lastName, age, phone are required", some dbEmpty, []) ∧
    doctorsCreate (some dbEmpty) [] =
      (.err 400 "name, specialization, phone number are required", some dbEmpty, []) ∧
    departmentsCreate (some dbEmpty) [] 0 =
      (.err 400 "name, description, floor, headDoctor are required", some dbEmpty, []) ∧
    appointmentsCreate (some dbEmpty) [] 0 =
      (.err 400 "appointmentDate, appointmentTime, reason, status are required",
       some dbEmpty, []) :=
  ⟨⟨"firstName", by decide, rfl⟩,
   (create_missing_required_field_rejected dbEmpty [] 0).1 ⟨"firstName", by decide, rfl⟩,
   (create_missing_required_field_rejected dbEmpty [] 0).2.1 ⟨"name", by decide, rfl⟩,
   (create_missing_required_field_rejected dbEmpty [] 0).2.2.1 ⟨"name", by decide, rfl⟩,
   (create_missing_required_field_rejected dbEmpty [] 0).2.2.2
     ⟨"appointmentDate", by decide, rfl⟩⟩

/-- C10: every create's required-field check uses truthiness: a request
supplying a required field with a falsy value is rejected with 400 exactly
as if the field were missing, with no insert and unchanged state; and
whenever a create answers 201 every required field of the request was
truthy, so no document with a falsy required-field value is ever created
through the API. -/
theorem falsy_required_field_rejected (db : DB) (body : Doc) (now : Nat) :
    ((∃ f ∈ patientRequiredFields, ∃ v, body.get f = some v ∧ v.truthy = false) →
      patientsCreate (some db) body =
        (.err 400 "firstName, lastName, age, phone are required", some db, [])) ∧
    ((∃ f ∈ doctorRequiredFields, ∃ v, body.get f = some v ∧ v.truthy = false) →
      doctorsCreate (some db) body =
        (.err 400 "name, specialization, phone number are required", some db, [])) ∧
    ((∃ f ∈ departmentRequiredFields, ∃ v, body.get f = some v ∧ v.truthy = false) →
      departmentsCreate (some db) body now =
        (.err 400 "name, description, floor, headDoctor are required", some db, [])) ∧
    ((∃ f ∈ appointmentRequiredFields, ∃ v, body.get f = some v ∧ v.truthy = false) →
      appointmentsCreate (some db) body now =
        (.err 400 "appointmentDate, appointmentTime, reason, status are required",
         some db, [])) ∧
    ((patientsCreate (some db) body).1.status = 201 →
      ∀ f ∈ patientRequiredFields, truthyOpt (body.get f) = true) ∧
    ((doctorsCreate (some db) body).1.status = 201 →
      ∀ f ∈ doctorRequiredFields, truthyOpt (body.get f) = true) ∧
    ((departmentsCreate (some db) body now).1.status = 201 →
      ∀ f ∈ departmentRequiredFields, truthyOpt (body.get f) = true) ∧
    ((appointmentsCreate (some db) body now).1.status = 201 →
      ∀ f ∈ appointmentRequiredFields, truthyOpt (body.get f) = true) := by
  refine ⟨?_, ?_, ?_, ?_, ?_, ?_, ?_, ?_⟩
  · rintro ⟨f, hf, v, hv, hfalse⟩
    simp only [patientRequiredFields, List.mem_cons, List.not_mem_nil, or_false] at hf
    rcases hf with rfl | rfl | rfl | rfl <;>
      simp [patientsCreate, patientRequiredOk, hv, truthyOpt, hfalse]
  · rintro ⟨f, hf, v, hv, hfalse⟩
    simp only [doctorRequiredFields, List.mem_cons, List.not_mem_nil, or_false] at hf
    rcases hf with rfl | rfl | rfl <;>
      simp [doctorsCreate, doctorRequiredOk, hv, truthyOpt, hfalse]
  · rintro ⟨f, hf, v, hv, hfalse⟩
    simp only [departmentRequiredFields, List.mem_cons, List.not_mem_nil, or_false] at hf
    rcases hf with rfl | rfl | rfl | rfl <;>
      simp [departmentsCreate, departmentRequiredOk, hv, truthyOpt, hfalse]
  · rintro ⟨f, hf, v, hv, hfalse⟩
    simp only [appointmentRequiredFields, List.mem_cons, List.not_mem_nil, or_false] at hf
    rcases hf with rfl | rfl | rfl | rfl <;>
      simp [appointmentsCreate, appointmentRequiredOk, hv, truthyOpt, hfalse]
  · intro h201 f hf
    by_cases hr : patientRequiredOk body = true
    · simp only [patientRequiredFields, List.mem_cons, List.not_mem_nil, or_false] at hf
      simp only [patientRequiredOk, Bool.and_eq_true] at hr
      rcases hf with rfl | rfl | rfl | rfl
      · exact hr.1.1.1
      · exact hr.1.1.2
      · exact hr.1.2
      · exact hr.2
    · rw [Bool.not_eq_true] at hr
      simp [patientsCreate, hr, Resp.status] at h201
  · intro h201 f hf
    by_cases hr : doctorRequiredOk body = true
    · simp only [doctorRequiredFields, List.mem_cons, List.not_mem_nil, or_false] at hf
      simp only [doctorRequiredOk, Bool.and_eq_true] at hr
      rcases hf with rfl | rfl | rfl
      · exact hr.1.1
      · exact hr.1.2
      · exact hr.2
    · rw [Bool.not_eq_true] at hr
      simp [doctorsCreate, hr, Resp.status] at h201
  · intro h201 f hf
    by_cases hr : departmentRequiredOk body = true
    · simp only [departmentRequiredFields, List.mem_cons, List.not_mem_nil, or_false] at hf
      simp only [departmentRequiredOk, Bool.and_eq_true] at hr
      rcases hf with rfl | rfl | rfl | rfl
      · exact hr.1.1.1
      · exact hr.1.1.2
      · exact hr.1.2
      · exact hr.2
    · rw [Bool.not_eq_true] at hr
      simp [departmentsCreate, hr, Resp.status] at h201
  · intro h201 f hf
    by_cases hr : appointmentRequiredOk body = true
    · simp only [appointmentRequiredFields, List.mem_cons, List.not_mem_nil, or_false] at hf
      simp only [appointmentRequiredOk, Bool.and_eq_true] at hr
      rcases hf with rfl | rfl | rfl | rfl
      · exact hr.1.1.1
      · exact hr.1.1.2
      · exact hr.1.2
      · exact hr.2
    · rw [Bool.not_eq_true] at hr
      simp [appointmentsCreate, hr, Resp.status] at h201

/-- A body supplying every required field of every entity but with a falsy
value for one required field of each entity. -/
def falsyBody : Doc :=
  [("firstName", .str "A"), ("lastName", .str "B"), ("age", .num 0), ("phone", .str "1"),
   ("name", .str "N"), ("specialization", .str "s"), ("phoneNumber", .str ""),
   ("description", .str "d"), ("floor", .num 0), ("headDoctor", .str "h"),
   ("appointmentDate", .str "2026-01-01"), ("appointmentTime", .str "10:00"),
   ("reason", .str "r"), ("status", .str "")]

/-- A body supplying every required field of every entity with truthy
values. -/
def fullBody : Doc :=
  [("firstName", .str "A"), ("lastName", .str "B"), ("age", .num 30), ("phone", .str "1"),
   ("name", .str "N"), ("specialization", .str "s"), ("phoneNumber", .str "2"),
   ("description", .str "d"), ("floor", .num 2), ("headDoctor", .str "h"),
   ("appointmentDate", .str "2026-01-01"), ("appointmentTime", .str "10:00"),
   ("reason", .str "r"), ("status", .str "Scheduled")]

/-- Witness for C10: age 0, empty phoneNumber, floor 0 and empty status are
each rejected as missing, and a fully truthy body that passes each create
indeed has every required field truthy. -/
theorem falsy_required_field_rejected_witness :
    patientsCreate (some dbEmpty) falsyBody =
      (.err 400 "firstName, lastName, age, phone are required", some dbEmpty, []) ∧
    doctorsCreate (some dbEmpty) falsyBody =
      (.err 400 "name, specialization, phone number are required", some dbEmpty, []) ∧
    departmentsCreate (some dbEmpty) falsyBody 0 =
      (.err 400 "name, description, floor, headDoctor are required", some dbEmpty, []) ∧
    appointmentsCreate (some dbEmpty) falsyBody 0 =
      (.err 400 "appointmentDate, appointmentTime, reason, status are required",
       some dbEmpty, []) ∧
    (∀ f ∈ patientRequiredFields, truthyOpt (Doc.get fullBody f) = true) ∧
    (∀ f ∈ doctorRequiredFields, truthyOpt (Doc.get fullBody f) = true) ∧
    (∀ f ∈ departmentRequiredFields, truthyOpt (Doc.get fullBody f) = true) ∧
    (∀ f ∈ appointmentRequiredFields, truthyOpt (Doc.get fullBody f) = true) :=
  ⟨(falsy_required_field_rejected dbEmpty falsyBody 0).1
     ⟨"age", by decide, Value.num 0, by decide, by decide⟩,
   (falsy_required_field_rejected dbEmpty falsyBody 0).2.1
     ⟨"phoneNumber", by decide, Value.str "", by decide, by decide⟩,
   (falsy_required_field_rejected dbEmpty falsyBody 0).2.2.1
     ⟨"floor", by decide, Value.num 0, by decide, by decide⟩,
   (falsy_required_field_rejected dbEmpty falsyBody 0).2.2.2.1
     ⟨"status", by decide, Value.str "", by decide, by decide⟩,
   (falsy_required_field_rejected dbEmpty fullBody 0).2.2.2.2.1 (by decide),
   (falsy_required_field_rejected dbEmpty fullBody 0).2.2.2.2.2.1 (by decide),
   (falsy_required_field_rejected dbEmpty fullBody 0).2.2.2.2.2.2.1 (by decide),
   (falsy_required_field_rejected dbEmpty fullBody 0).2.2.2.2.2.2.2 (by decide)⟩

/-- C6: for the entities declaring optional string fields — address on the
patients handler, department on the doctors handler — a create with all
required fields present and the optional string field absent answers 201
with the new identifier, and a get-by-id of that identifier returns the
created document in which the absent optional string field is present with
the empty-string value. -/
theorem absent_optional_string_defaults (db : DB) (bp bd : Doc)
    (hp : patientRequiredOk bp = true) (hpa : bp.get "address" = none)
    (hd : doctorRequiredOk bd = true) (hdd : bd.get "department" = none)
    (hfp : findById db.patients (genId db.nextId) = none)
    (hfd : findById db.doctors (genId db.nextId) = none) :
    ((patientsCreate (some db) bp).1 = .created "Patient created" (genId db.nextId) ∧
     ∃ db1, (patientsCreate (some db) bp).2.1 = some db1 ∧
       ∃ d, (patientsGetById (some db1) (genId db.nextId)).1 = .doc d ∧
         d.get "address" = some (.str "")) ∧
    ((doctorsCreate (some db) bd).1 = .created "Doctor created" (genId db.nextId) ∧
     ∃ db1, (doctorsCreate (some db) bd).2.1 = some db1 ∧
       ∃ d, (doctorsGetById (some db1) (genId db.nextId)).1 = .doc d ∧
         d.get "department" = some (.str "")) := by
  constructor
  · refine ⟨by simp [patientsCreate, hp], ?_⟩
    refine ⟨{ db with
                patients := db.patients ++ [newPatientDoc bp (genId db.nextId)],
                nextId := db.nextId + 1 },
            by simp [patientsCreate, hp], ?_⟩
    refine ⟨newPatientDoc bp (genId db.nextId), ?_, newPatientDoc_address bp _ hpa⟩
    have hfind := findById_fresh_append db.patients (newPatientDoc bp (genId db.nextId))
      (genId db.nextId) hfp (newPatientDoc_isMatch bp _)
    simp [patientsGetById, isValidId_genId, hfind]
  · refine ⟨by simp [doctorsCreate, hd], ?_⟩
    refine ⟨{ db with
                doctors := db.doctors ++ [newDoctorDoc bd (genId db.nextId)],
                nextId := db.nextId + 1 },
            by simp [doctorsCreate, hd], ?_⟩
    refine ⟨newDoctorDoc bd (genId db.nextId), ?_, newDoctorDoc_department bd _ hdd⟩
    have hfind := findById_fresh_append db.doctors (newDoctorDoc bd (genId db.nextId))
      (genId db.nextId) hfd (newDoctorDoc_isMatch bd _)
    simp [doctorsGetById, isValidId_genId, hfind]

/-- Witness for C6: concrete creates without address and department over the
empty store, then the get returns the empty-string defaults. -/
theorem absent_optional_string_defaults_witness :
    patientRequiredOk patientBody1 = true ∧
    Doc.get patientBody1 "address" = none ∧
    ((patientsCreate (some dbEmpty) patientBody1).1 =
      .created "Patient created" (genId 0) ∧
     ∃ db1, (patientsCreate (some dbEmpty) patientBody1).2.1 = some db1 ∧
       ∃ d, (patientsGetById (some db1) (genId 0)).1 = .doc d ∧
         d.get "address" = some (.str "")) :=
  ⟨by decide, by decide,
   (absent_optional_string_defaults dbEmpty patientBody1
      [("name", .str "N"), ("specialization", .str "s"), ("phoneNumber", .str "2")]
      (by decide) (by decide) (by decide) (by decide) (by decide) (by decide)).1⟩

/-- C8: deleting twice through the same well-formed identifier of an
existing document: the first call answers 200 and removes the document
physically from the collection, the second call answers 404 with the state
unchanged, for each of the four entities. -/
theorem delete_twice (db : DB) (idP idD idE idA : String)
    (hvP : isValidId idP = true) (hcP : countById db.patients idP = 1)
    (hvD : isValidId idD = true) (hcD : countById db.doctors idD = 1)
    (hvE : isValidId idE = true) (hcE : countById db.departments idE = 1)
    (hvA : isValidId idA = true) (hcA : countById db.appointments idA = 1) :
    (∃ db1,
      patientsDelete (some db) idP =
        (.okMsg "Patient deleted successfully", some db1, [.delOne "patients" idP]) ∧
      findById db1.patients idP = none ∧ countById db1.patients idP = 0 ∧
      patientsDelete (some db1) idP =
        (.err 404 "Patient not found", some db1, [.delOne "patients" idP])) ∧
    (∃ db1,
      doctorsDelete (some db) idD =
        (.okMsg "Doctor deleted successfully", some db1, [.delOne "doctors" idD]) ∧
      findById db1.doctors idD = none ∧ countById db1.doctors idD = 0 ∧
      doctorsDelete (some db1) idD =
        (.err 404 "Doctor not found", some db1, [.delOne "doctors" idD])) ∧
    (∃ db1,
      departmentsDelete (some db) idE =
        (.okMsg "Department deleted successfully", some db1, [.delOne "departments" idE]) ∧
      findById db1.departments idE = none ∧ countById db1.departments idE = 0 ∧
      departmentsDelete (some db1) idE =
        (.err 404 "Department not found", some db1, [.delOne "departments" idE])) ∧
    (∃ db1,
      appointmentsDelete (some db) idA =
        (.okMsg "appointment deleted successfully", some db1,
         [.delOne "appointments" idA]) ∧
      findById db1.appointments idA = none ∧ countById db1.appointments idA = 0 ∧
      appointmentsDelete (some db1) idA =
        (.err 404 "appointment not found", some db1, [.delOne "appointments" idA])) := by
  have hP := deleteFirst_of_countById_one db.patients idP hcP
  have hD := deleteFirst_of_countById_one db.doctors idD hcD
  have hE := deleteFirst_of_countById_one db.departments idE hcE
  have hA := deleteFirst_of_countById_one db.appointments idA hcA
  refine ⟨⟨{ db with patients := (deleteFirst db.patients idP).1 }, ?_, ?_, ?_, ?_⟩,
          ⟨{ db with doctors := (deleteFirst db.doctors idD).1 }, ?_, ?_, ?_, ?_⟩,
          ⟨{ db with departments := (deleteFirst db.departments idE).1 }, ?_, ?_, ?_, ?_⟩,
          ⟨{ db with appointments := (deleteFirst db.appointments idA).1 }, ?_, ?_, ?_, ?_⟩⟩
  · simp [patientsDelete, hvP, hP.1]
  · exact findById_eq_none_of_countById_eq_zero _ _ hP.2
  · exact hP.2
  · simp [patientsDelete, hvP, deleteFirst_of_countById_zero _ _ hP.2]
  · simp [doctorsDelete, hvD, hD.1]
  · exact findById_eq_none_of_countById_eq_zero _ _ hD.2
  · exact hD.2
  · simp [doctorsDelete, hvD, deleteFirst_of_countById_zero _ _ hD.2]
  · simp [departmentsDelete, hvE, hE.1]
  · exact findById_eq_none_of_countById_eq_zero _ _ hE.2
  · exact hE.2
  · simp [departmentsDelete, hvE, deleteFirst_of_countById_zero _ _ hE.2]
  · simp [appointmentsDelete, hvA, hA.1]
  · exact findById_eq_none_of_countById_eq_zero _ _ hA.2
  · exact hA.2
  · simp [appointmentsDelete, hvA, deleteFirst_of_countById_zero _ _ hA.2]

/-- A store in which every collection holds exactly one document carrying
the identifier of validId1. -/
def dbOneEach : DB :=
  ⟨[[("_id", .oid validId1), ("firstName", .str "A")]],
   [[("_id", .oid validId1), ("name", .str "N")]],
   [[("_id", .oid validId1), ("name", .str "Cardio"), ("createdAt", .time 1),
     ("updatedAt", .time 1)]],
   [[("_id", .oid validId1), ("reason", .str "r"), ("createdAt", .time 1),
     ("updatedAt", .time 1)]],
   7⟩

/-- Witness for C8 on a store holding one document per collection. -/
theorem delete_twice_witness :
    isValidId validId1 = true ∧ countById dbOneEach.patients validId1 = 1 ∧
    (∃ db1,
      patientsDelete (some dbOneEach) validId1 =
        (.okMsg "Patient deleted successfully", some db1, [.delOne "patients" validId1]) ∧
      findById db1.patients validId1 = none ∧ countById db1.patients validId1 = 0 ∧
      patientsDelete (some db1) validId1 =
        (.err 404 "Patient not found", some db1, [.delOne "patients" validId1])) :=
  ⟨by decide, by decide,
   (delete_twice dbOneEach validId1 validId1 validId1 validId1
      (by decide) (by decide) (by decide) (by decide)
      (by decide) (by decide) (by decide) (by decide)).1⟩

/-- C4: for the two timestamped entities, creation stamps createdAt and
updatedAt with the server time; every successful update leaves the
addressed document's createdAt unchanged and sets its updatedAt to the
server time of the update, whatever createdAt/updatedAt values the caller
put in the payload — forged timestamps never reach the stored document. -/
theorem timestamps_protected (db : DB) (bodyC bodyU : Doc) (idE idA : String)
    (now nowU : Nat)
    (hreqE : departmentRequiredOk bodyC = true)
    (hreqA : appointmentRequiredOk bodyC = true)
    (hfE : findById db.departments (genId db.nextId) = none)
    (hfA : findById db.appointments (genId db.nextId) = none)
    (hokE : (departmentsUpdate (some db) idE bodyU nowU).1 =
      .okMsg "Department updated successfully")
    (hokA : (appointmentsUpdate (some db) idA bodyU nowU).1 =
      .okMsg "Appointment updated successfully") :
    (∃ db1, (departmentsCreate (some db) bodyC now).2.1 = some db1 ∧
      ∃ d, findById db1.departments (genId db.nextId) = some d ∧
        d.get "createdAt" = some (.time now) ∧ d.get "updatedAt" = some (.time now)) ∧
    (∃ db1, (appointmentsCreate (some db) bodyC now).2.1 = some db1 ∧
      ∃ d, findById db1.appointments (genId db.nextId) = some d ∧
        d.get "createdAt" = some (.time now) ∧ d.get "updatedAt" = some (.time now)) ∧
    (∃ db2, (departmentsUpdate (some db) idE bodyU nowU).2.1 = some db2 ∧
      ∃ d0 d1, findById db.departments idE = some d0 ∧
        findById db2.departments idE = some d1 ∧
        d1.get "createdAt" = d0.get "createdAt" ∧
        d1.get "updatedAt" = some (.time nowU)) ∧
    (∃ db2, (appointmentsUpdate (some db) idA bodyU nowU).2.1 = some db2 ∧
      ∃ d0 d1, findById db.appointments idA = some d0 ∧
        findById db2.appointments idA = some d1 ∧
        d1.get "createdAt" = d0.get "createdAt" ∧
        d1.get "updatedAt" = some (.time nowU)) := by
  refine ⟨?_, ?_, ?_, ?_⟩
  · refine ⟨{ db with
                departments := db.departments ++ [newDepartmentDoc bodyC (genId db.nextId) now],
                nextId := db.nextId + 1 },
            by simp [departmentsCreate, hreqE], ?_⟩
    refine ⟨newDepartmentDoc bodyC (genId db.nextId) now, ?_,
      newDepartmentDoc_createdAt bodyC _ now, newDepartmentDoc_updatedAt bodyC _ now⟩
    exact findById_fresh_append db.departments _ _ hfE (newDepartmentDoc_isMatch bodyC _ now)
  · refine ⟨{ db with
                appointments := db.appointments ++ [newAppointmentDoc bodyC (genId db.nextId) now],
                nextId := db.nextId + 1 },
            by simp [appointmentsCreate, hreqA], ?_⟩
    refine ⟨newAppointmentDoc bodyC (genId db.nextId) now, ?_,
      newAppointmentDoc_createdAt bodyC _ now, newAppointmentDoc_updatedAt bodyC _ now⟩
    exact findById_fresh_append db.appointments _ _ hfA (newAppointmentDoc_isMatch bodyC _ now)
  · by_cases hv : isValidId idE = true
    · by_cases he : (stripImmutable bodyU).isEmpty = true
      · exfalso; simp [departmentsUpdate, hv, he] at hokE
      · rw [Bool.not_eq_true] at he
        rcases hu : updateOne db.departments idE
            (stripImmutable bodyU ++ [("updatedAt", Value.time nowU)]) with _ | ⟨c, m⟩
        · exfalso; simp [departmentsUpdate, hv, he, hu] at hokE
        · by_cases hm0 : m = 0
          · exfalso; simp [departmentsUpdate, hv, he, hu, hm0] at hokE
          · refine ⟨{ db with departments := c },
              by simp [departmentsUpdate, hv, he, hu, hm0], ?_⟩
            have hu' : applyUpdate db.departments idE
                (stripImmutable bodyU ++ [("updatedAt", Value.time nowU)]) = some (c, m) := by
              rw [updateOne, if_neg (by simp [isEmpty_append_singleton])] at hu
              exact hu
            obtain ⟨d0, h0, h1⟩ :=
              findById_applyUpdate _ _ _ _ _ (patch_get_id_none bodyU nowU) hu' hm0
            refine ⟨d0, d0.setMany _, h0, h1, ?_, ?_⟩
            · exact get_setMany_of_forall _ _ (patch_forall_ne_createdAt bodyU nowU) d0
            · rw [setMany_append]
              exact get_set1_same _ _ _
    · exfalso; rw [Bool.not_eq_true] at hv; simp [departmentsUpdate, hv] at hokE
  · by_cases hv : isValidId idA = true
    · by_cases he : (stripImmutable bodyU).isEmpty = true
      · exfalso; simp [appointmentsUpdate, hv, he] at hokA
      · rw [Bool.not_eq_true] at he
        rcases hu : updateOne db.appointments idA
            (stripImmutable bodyU ++ [("updatedAt", Value.time nowU)]) with _ | ⟨c, m⟩
        · exfalso; simp [appointmentsUpdate, hv, he, hu] at hokA
        · by_cases hm0 : m = 0
          · exfalso; simp [appointmentsUpdate, hv, he, hu, hm0] at hokA
          · refine ⟨{ db with appointments := c },
              by simp [appointmentsUpdate, hv, he, hu, hm0], ?_⟩
            have hu' : applyUpdate db.appointments idA
                (stripImmutable bodyU ++ [("updatedAt", Value.time nowU)]) = some (c, m) := by
              rw [updateOne, if_neg (by simp [isEmpty_append_singleton])] at hu
              exact hu
            obtain ⟨d0, h0, h1⟩ :=
              findById_applyUpdate _ _ _ _ _ (patch_get_id_none bodyU nowU) hu' hm0
            refine ⟨d0, d0.setMany _, h0, h1, ?_, ?_⟩
            · exact get_setMany_of_forall _ _ (patch_forall_ne_createdAt bodyU nowU) d0
            · rw [setMany_append]
              exact get_set1_same _ _ _
    · exfalso; rw [Bool.not_eq_true] at hv; simp [appointmentsUpdate, hv] at hokA

/-- A create body carrying the required fields of both timestamped
entities. -/
def tsBody : Doc :=
  [("name", .str "Neuro"), ("description", .str "x"), ("floor", .num 3),
   ("headDoctor", .str "Dr"), ("appointmentDate", .str "2026-03-01"),
   ("appointmentTime", .str "09:00"), ("reason", .str "q"), ("status", .str "Done")]

/-- An update body that also tries to forge both timestamps. -/
def forgeBody : Doc :=
  [("name", .str "Forged"), ("createdAt", .time 999), ("updatedAt", .time 999)]

/-- Witness for C4 on a store holding one timestamped document per
collection, updated with a payload that tries to forge the timestamps. -/
theorem timestamps_protected_witness :
    departmentRequiredOk tsBody = true ∧
    (departmentsUpdate (some dbOneEach) validId1 forgeBody 7).1 =
      .okMsg "Department updated successfully" ∧
    (∃ db2, (departmentsUpdate (some dbOneEach) validId1 forgeBody 7).2.1 = some db2 ∧
      ∃ d0 d1, findById dbOneEach.departments validId1 = some d0 ∧
        findById db2.departments validId1 = some d1 ∧
        d1.get "createdAt" = d0.get "createdAt" ∧
        d1.get "updatedAt" = some (.time 7)) :=
  ⟨by decide, by decide,
   (timestamps_protected dbOneEach tsBody forgeBody validId1 validId1 5 7
      (by decide) (by decide) (by decide) (by decide) (by decide) (by decide)).2.2.1⟩

/-- C7: create, then update-by-id with a single ordinary field, then
get-by-id returns the merged document for every entity: the updated field
carries the new value, every other field keeps the created document's
value, and for the timestamped entities the resulting updatedAt is the
update time, strictly greater than the created updatedAt. -/
theorem create_update_get_merges (db : DB) (bodyP bodyD bodyE bodyA : Doc)
    (k : String) (v : Value) (now1 now2 : Nat)
    (hreqP : patientRequiredOk bodyP = true)
    (hfP : findById db.patients (genId db.nextId) = none)
    (hreqD : doctorRequiredOk bodyD = true)
    (hfD : findById db.doctors (genId db.nextId) = none)
    (hreqE : departmentRequiredOk bodyE = true)
    (hfE : findById db.departments (genId db.nextId) = none)
    (hreqA : appointmentRequiredOk bodyA = true)
    (hfA : findById db.appointments (genId db.nextId) = none)
    (hk1 : k ≠ "_id") (hk2 : k ≠ "createdAt") (hk3 : k ≠ "updatedAt")
    (hlt : now1 < now2) :
    (∃ db1 db2 m,
      (patientsCreate (some db) bodyP).1 = .created "Patient created" (genId db.nextId) ∧
      (patientsCreate (some db) bodyP).2.1 = some db1 ∧
      (patientsUpdate (some db1) (genId db.nextId) [(k, v)]).1 =
        .okMsg "Patient updated successfully" ∧
      (patientsUpdate (some db1) (genId db.nextId) [(k, v)]).2.1 = some db2 ∧
      (patientsGetById (some db2) (genId db.nextId)).1 = .doc m ∧
      m.get k = some v ∧
      (∀ f, f ≠ k → m.get f = (newPatientDoc bodyP (genId db.nextId)).get f)) ∧
    (∃ db1 db2 m,
      (doctorsCreate (some db) bodyD).1 = .created "Doctor created" (genId db.nextId) ∧
      (doctorsCreate (some db) bodyD).2.1 = some db1 ∧
      (doctorsUpdate (some db1) (genId db.nextId) [(k, v)]).1 =
        .okMsg "Doctor updated successfully" ∧
      (doctorsUpdate (some db1) (genId db.nextId) [(k, v)]).2.1 = some db2 ∧
      (doctorsGetById (some db2) (genId db.nextId)).1 = .doc m ∧
      m.get k = some v ∧
      (∀ f, f ≠ k → m.get f = (newDoctorDoc bodyD (genId db.nextId)).get f)) ∧
    (∃ db1 db2 m,
      (departmentsCreate (some db) bodyE now1).1 =
        .created "Department created successfully" (genId db.nextId) ∧
      (departmentsCreate (some db) bodyE now1).2.1 = some db1 ∧
      (departmentsUpdate (some db1) (genId db.nextId) [(k, v)] now2).1 =
        .okMsg "Department updated successfully" ∧
      (departmentsUpdate (some db1) (genId db.nextId) [(k, v)] now2).2.1 = some db2 ∧
      (departmentsGetById (some db2) (genId db.nextId)).1 = .doc m ∧
      m.get k = some v ∧
      (∀ f, f ≠ k → f ≠ "updatedAt" →
        m.get f = (newDepartmentDoc bodyE (genId db.nextId) now1).get f) ∧
      m.get "updatedAt" = some (.time now2) ∧
      (newDepartmentDoc bodyE (genId db.nextId) now1).get "updatedAt" =
        some (.time now1) ∧
      now1 < now2) ∧
    (∃ db1 db2 m,
      (appointmentsCreate (some db) bodyA now1).1 =
        .created "appointment created Successfullly" (genId db.nextId) ∧
      (appointmentsCreate (some db) bodyA now1).2.1 = some db1 ∧
      (appointmentsUpdate (some db1) (genId db.nextId) [(k, v)] now2).1 =
        .okMsg "Appointment updated successfully" ∧
      (appointmentsUpdate (some db1) (genId db.nextId) [(k, v)] now2).2.1 = some db2 ∧
      (appointmentsGetById (some db2) (genId db.nextId)).1 = .doc m ∧
      m.get k = some v ∧
      (∀ f, f ≠ k → f ≠ "updatedAt" →
        m.get f = (newAppointmentDoc bodyA (genId db.nextId) now1).get f) ∧
      m.get "updatedAt" = some (.time now2) ∧
      (newAppointmentDoc bodyA (genId db.nextId) now1).get "updatedAt" =
        some (.time now1) ∧
      now1 < now2) := by
  have hv := isValidId_genId db.nextId
  have hid1 : Doc.get [(k, v)] "_id" = none := by
    rw [get_cons, if_neg hk1]; rfl
  have hid2 : Doc.get [(k, v), ("updatedAt", Value.time now2)] "_id" = none := by
    rw [get_cons, if_neg hk1]; rfl
  have hstrip : stripImmutable [(k, v)] = [(k, v)] := by
    simp [stripImmutable, hk1, hk2, hk3]
  refine ⟨?_, ?_, ?_, ?_⟩
  · have hupd := updateOne_fresh_append db.patients (newPatientDoc bodyP (genId db.nextId))
      (genId db.nextId) [(k, v)] hfP (newPatientDoc_isMatch bodyP _) hid1 rfl
    have hfind2 : findById
        (db.patients ++ [(newPatientDoc bodyP (genId db.nextId)).setMany [(k, v)]])
        (genId db.nextId) =
        some ((newPatientDoc bodyP (genId db.nextId)).setMany [(k, v)]) :=
      findById_fresh_append _ _ _ hfP
        (by rw [isMatch_setMany _ _ _ hid1]; exact newPatientDoc_isMatch bodyP _)
    refine ⟨{ db with
                patients := db.patients ++ [newPatientDoc bodyP (genId db.nextId)],
                nextId := db.nextId + 1 },
      { db with
          patients := db.patients ++ [(newPatientDoc bodyP (genId db.nextId)).setMany [(k, v)]],
          nextId := db.nextId + 1 },
      (newPatientDoc bodyP (genId db.nextId)).setMany [(k, v)],
      by simp [patientsCreate, hreqP],
      by simp [patientsCreate, hreqP],
      by simp [patientsCreate, hreqP, patientsUpdate, hv, hupd],
      by simp [patientsCreate, hreqP, patientsUpdate, hv, hupd],
      by simp [patientsGetById, hv, hfind2],
      ?_, ?_⟩
    · exact get_set1_same _ _ _
    · intro f hf
      exact get_set1_ne _ _ _ _ hf
  · have hupd := updateOne_fresh_append db.doctors (newDoctorDoc bodyD (genId db.nextId))
      (genId db.nextId) [(k, v)] hfD (newDoctorDoc_isMatch bodyD _) hid1 rfl
    have hfind2 : findById
        (db.doctors ++ [(newDoctorDoc bodyD (genId db.nextId)).setMany [(k, v)]])
        (genId db.nextId) =
        some ((newDoctorDoc bodyD (genId db.nextId)).setMany [(k, v)]) :=
      findById_fresh_append _ _ _ hfD
        (by rw [isMatch_setMany _ _ _ hid1]; exact newDoctorDoc_isMatch bodyD _)
    refine ⟨{ db with
                doctors := db.doctors ++ [newDoctorDoc bodyD (genId db.nextId)],
                nextId := db.nextId + 1 },
      { db with
          doctors := db.doctors ++ [(newDoctorDoc bodyD (genId db.nextId)).setMany [(k, v)]],
          nextId := db.nextId + 1 },
      (newDoctorDoc bodyD (genId db.nextId)).setMany [(k, v)],
      by simp [doctorsCreate, hreqD],
      by simp [doctorsCreate, hreqD],
      by simp [doctorsCreate, hreqD, doctorsUpdate, hv, hupd],
      by simp [doctorsCreate, hreqD, doctorsUpdate, hv, hupd],
      by simp [doctorsGetById, hv, hfind2],
      ?_, ?_⟩
    · exact get_set1_same _ _ _
    · intro f hf
      exact get_set1_ne _ _ _ _ hf
  · have hupd := updateOne_fresh_append db.departments
      (newDepartmentDoc bodyE (genId db.nextId) now1) (genId db.nextId)
      [(k, v), ("updatedAt", Value.time now2)] hfE
      (newDepartmentDoc_isMatch bodyE _ now1) hid2 rfl
    have hfind2 : findById
        (db.departments ++
          [(newDepartmentDoc bodyE (genId db.nextId) now1).setMany
            [(k, v), ("updatedAt", Value.time now2)]])
        (genId db.nextId) =
        some ((newDepartmentDoc bodyE (genId db.nextId) now1).setMany
          [(k, v), ("updatedAt", Value.time now2)]) :=
      findById_fresh_append _ _ _ hfE
        (by rw [isMatch_setMany _ _ _ hid2]; exact newDepartmentDoc_isMatch bodyE _ now1)
    refine ⟨{ db with
                departments := db.departments ++ [newDepartmentDoc bodyE (genId db.nextId) now1],
                nextId := db.nextId + 1 },
      { db with
          departments := db.departments ++
            [(newDepartmentDoc bodyE (genId db.nextId) now1).setMany
              [(k, v), ("updatedAt", Value.time now2)]],
          nextId := db.nextId + 1 },
      (newDepartmentDoc bodyE (genId db.nextId) now1).setMany
        [(k, v), ("updatedAt", Value.time now2)],
      by simp [departmentsCreate, hreqE],
      by simp [departmentsCreate, hreqE],
      by simp [departmentsCreate, hreqE, departmentsUpdate, hv, hstrip, hupd],
      by simp [departmentsCreate, hreqE, departmentsUpdate, hv, hstrip, hupd],
      by simp [departmentsGetById, hv, hfind2],
      ?_, ?_, ?_, newDepartmentDoc_updatedAt bodyE _ now1, hlt⟩
    · rw [show (newDepartmentDoc bodyE (genId db.nextId) now1).setMany
          [(k, v), ("updatedAt", Value.time now2)] =
          ((newDepartmentDoc bodyE (genId db.nextId) now1).set1 k v).set1 "updatedAt"
            (Value.time now2) from rfl,
        get_set1_ne _ _ _ _ hk3]
      exact get_set1_same _ _ _
    · intro f hf1 hf2
      rw [show (newDepartmentDoc bodyE (genId db.nextId) now1).setMany
          [(k, v), ("updatedAt", Value.time now2)] =
          ((newDepartmentDoc bodyE (genId db.nextId) now1).set1 k v).set1 "updatedAt"
            (Value.time now2) from rfl,
        get_set1_ne _ _ _ _ hf2, get_set1_ne _ _ _ _ hf1]
    · exact get_set1_same _ _ _
  · have hupd := updateOne_fresh_append db.appointments
      (newAppointmentDoc bodyA (genId db.nextId) now1) (genId db.nextId)
      [(k, v), ("updatedAt", Value.time now2)] hfA
      (newAppointmentDoc_isMatch bodyA _ now1) hid2 rfl
    have hfind2 : findById
        (db.appointments ++
          [(newAppointmentDoc bodyA (genId db.nextId) now1).setMany
            [(k, v), ("updatedAt", Value.time now2)]])
        (genId db.nextId) =
        some ((newAppointmentDoc bodyA (genId db.nextId) now1).setMany
          [(k, v), ("updatedAt", Value.time now2)]) :=
      findById_fresh_append _ _ _ hfA
        (by rw [isMatch_setMany _ _ _ hid2]; exact newAppointmentDoc_isMatch bodyA _ now1)
    refine ⟨{ db with
                appointments := db.appointments ++ [newAppointmentDoc bodyA (genId db.nextId) now1],
                nextId := db.nextId + 1 },
      { db with
          appointments := db.appointments ++
            [(newAppointmentDoc bodyA (genId db.nextId) now1).setMany
              [(k, v), ("updatedAt", Value.time now2)]],
          nextId := db.nextId + 1 },
      (newAppointmentDoc bodyA (genId db.nextId) now1).setMany
        [(k, v), ("updatedAt", Value.time now2)],
      by simp [appointmentsCreate, hreqA],
      by simp [appointmentsCreate, hreqA],
      by simp [appointmentsCreate, hreqA, appointmentsUpdate, hv, hstrip, hupd],
      by simp [appointmentsCreate, hreqA, appointmentsUpdate, hv, hstrip, hupd],
      by simp [appointmentsGetById, hv, hfind2],
      ?_, ?_, ?_, newAppointmentDoc_updatedAt bodyA _ now1, hlt⟩
    · rw [show (newAppointmentDoc bodyA (genId db.nextId) now1).setMany
          [(k, v), ("updatedAt", Value.time now2)] =
          ((newAppointmentDoc bodyA (genId db.nextId) now1).set1 k v).set1 "updatedAt"
            (Value.time now2) from rfl,
        get_set1_ne _ _ _ _ hk3]
      exact get_set1_same _ _ _
    · intro f hf1 hf2
      rw [show (newAppointmentDoc bodyA (genId db.nextId) now1).setMany
          [(k, v), ("updatedAt", Value.time now2)] =
          ((newAppointmentDoc bodyA (genId db.nextId) now1).set1 k v).set1 "updatedAt"
            (Value.time now2) from rfl,
        get_set1_ne _ _ _ _ hf2, get_set1_ne _ _ _ _ hf1]
    · exact get_set1_same _ _ _

/-- Witness for C7: create a department from the empty store at time 5,
update its name at time 9, read it back merged. -/
theorem create_update_get_merges_witness :
    departmentRequiredOk fullBody = true ∧ (5 : Nat) < 9 ∧
    (∃ db1 db2 m,
      (departmentsCreate (some dbEmpty) fullBody 5).1 =
        .created "Department created successfully" (genId 0) ∧
      (departmentsCreate (some dbEmpty) fullBody 5).2.1 = some db1 ∧
      (departmentsUpdate (some db1) (genId 0) [("name", Value.str "Renamed")] 9).1 =
        .okMsg "Department updated successfully" ∧
      (departmentsUpdate (some db1) (genId 0) [("name", Value.str "Renamed")] 9).2.1 =
        some db2 ∧
      (departmentsGetById (some db2) (genId 0)).1 = .doc m ∧
      m.get "name" = some (Value.str "Renamed") ∧
      (∀ f, f ≠ "name" → f ≠ "updatedAt" →
        m.get f = (newDepartmentDoc fullBody (genId 0) 5).get f) ∧
      m.get "updatedAt" = some (.time 9) ∧
      (newDepartmentDoc fullBody (genId 0) 5).get "updatedAt" = some (.time 5) ∧
      (5 : Nat) < 9) :=
  ⟨by decide, by decide,
   (create_update_get_merges dbEmpty fullBody fullBody fullBody fullBody
      "name" (Value.str "Renamed") 5 9
      (by decide) (by decide) (by decide) (by decide) (by decide) (by decide)
      (by decide) (by decide) (by decide) (by decide) (by decide) (by decide)).2.2.1⟩

end HospitalApi
